import Mathlib

/-!
Verification of the data-access layer of the bcr-api repository
(`src/bwdata.py`).  The Python code is shallowly embedded: JSON values
become the inductive `Val`, Python dicts become association lists with
insertion-order update semantics, raised exceptions become `Except Err`,
and the HTTP collaborator `project.get` becomes an explicit `Transport`
function.  Network activity is made observable by returning, next to the
result, the list of transport fetches the operation issued.
-/

/-- A JSON-like Python value as it flows through `bwdata.py`. -/
inductive Val : Type where
  | vstr (s : String)
  | vint (n : Int)
  | vlist (xs : List Val)
  | vdict (kvs : List (String × Val))
deriving Repr

mutual

/-- Structural (Python `==`) equality on values. -/
def Val.beq : Val → Val → Bool
  | .vstr a, .vstr b => a == b
  | .vint a, .vint b => a == b
  | .vlist xs, .vlist ys => Val.beqL xs ys
  | .vdict xs, .vdict ys => Val.beqD xs ys
  | _, _ => false

/-- Pointwise equality of lists of values. -/
def Val.beqL : List Val → List Val → Bool
  | [], [] => true
  | x :: xs, y :: ys => Val.beq x y && Val.beqL xs ys
  | _, _ => false

/-- Pointwise equality of string-keyed pair lists. -/
def Val.beqD : List (String × Val) → List (String × Val) → Bool
  | [], [] => true
  | (k, x) :: xs, (l, y) :: ys => k == l && (Val.beq x y && Val.beqD xs ys)
  | _, _ => false

end

instance : BEq Val := ⟨Val.beq⟩

mutual

theorem Val.beq_refl : (a : Val) → Val.beq a a = true
  | .vstr _ => by simp [Val.beq]
  | .vint _ => by simp [Val.beq]
  | .vlist xs => Val.beqL_refl xs
  | .vdict xs => Val.beqD_refl xs

theorem Val.beqL_refl : (xs : List Val) → Val.beqL xs xs = true
  | [] => rfl
  | x :: xs => by
      simp only [Val.beqL, Bool.and_eq_true]
      exact ⟨Val.beq_refl x, Val.beqL_refl xs⟩

theorem Val.beqD_refl : (xs : List (String × Val)) → Val.beqD xs xs = true
  | [] => rfl
  | (k, x) :: xs => by
      simp only [Val.beqD, Bool.and_eq_true, beq_self_eq_true, true_and]
      exact ⟨Val.beq_refl x, Val.beqD_refl xs⟩

end

mutual

theorem Val.eq_of_beq : (a b : Val) → Val.beq a b = true → a = b
  | .vstr a, .vstr b, h => by
      simp only [Val.beq, beq_iff_eq] at h; rw [h]
  | .vint a, .vint b, h => by
      simp only [Val.beq, beq_iff_eq] at h; rw [h]
  | .vlist xs, .vlist ys, h => by rw [Val.eq_of_beqL xs ys h]
  | .vdict xs, .vdict ys, h => by rw [Val.eq_of_beqD xs ys h]
  | .vstr _, .vint _, h => Bool.noConfusion h
  | .vstr _, .vlist _, h => Bool.noConfusion h
  | .vstr _, .vdict _, h => Bool.noConfusion h
  | .vint _, .vstr _, h => Bool.noConfusion h
  | .vint _, .vlist _, h => Bool.noConfusion h
  | .vint _, .vdict _, h => Bool.noConfusion h
  | .vlist _, .vstr _, h => Bool.noConfusion h
  | .vlist _, .vint _, h => Bool.noConfusion h
  | .vlist _, .vdict _, h => Bool.noConfusion h
  | .vdict _, .vstr _, h => Bool.noConfusion h
  | .vdict _, .vint _, h => Bool.noConfusion h
  | .vdict _, .vlist _, h => Bool.noConfusion h

theorem Val.eq_of_beqL : (xs ys : List Val) → Val.beqL xs ys = true → xs = ys
  | [], [], _ => rfl
  | x :: xs, y :: ys, h => by
      simp only [Val.beqL, Bool.and_eq_true] at h
      rw [Val.eq_of_beq x y h.1, Val.eq_of_beqL xs ys h.2]
  | [], _ :: _, h => Bool.noConfusion h
  | _ :: _, [], h => Bool.noConfusion h

theorem Val.eq_of_beqD : (xs ys : List (String × Val)) → Val.beqD xs ys = true → xs = ys
  | [], [], _ => rfl
  | (k, x) :: xs, (l, y) :: ys, h => by
      simp only [Val.beqD, Bool.and_eq_true, beq_iff_eq] at h
      rw [h.1, Val.eq_of_beq x y h.2.1, Val.eq_of_beqD xs ys h.2.2]
  | [], _ :: _, h => Bool.noConfusion h
  | _ :: _, [], h => Bool.noConfusion h

end

instance : LawfulBEq Val where
  eq_of_beq := Val.eq_of_beq _ _
  rfl := Val.beq_refl _

instance : DecidableEq Val := fun a b =>
  decidable_of_iff (Val.beq a b = true)
    ⟨Val.eq_of_beq a b, fun h => h ▸ Val.beq_refl a⟩

/-- Expected-type tags of the filter policy table (`filters.params`). -/
inductive PyTy : Type where
  | tstr
  | tint
  | tlist
deriving Repr, DecidableEq

/-- Python `isinstance` restricted to the value shapes used by the filter table. -/
def isinst : PyTy → Val → Bool
  | .tstr, .vstr _ => true
  | .tint, .vint _ => true
  | .tlist, .vlist _ => true
  | _, _ => false

/-- The exceptions `bwdata.py` can raise.  The source raises `KeyError`
with distinct message strings; the spec names these messages as an error
taxonomy (MissingNameError, UnknownEntityError, ...), and we keep one
constructor per raise site so the two can be compared precisely.
`dictKeyError` is a plain Python dict-lookup `KeyError`, `typeError` a
Python `TypeError`, `indexError` a list-index failure. -/
inductive Err : Type where
  | missingName
  | unknownEntity (name : String)
  | missingStartDate
  | invalidFilter (param : String)
  | mentionsFetch
  | invalidDateRange
  | missingChartAxes
  | missingFeature
  | missingMetadataType
  | dictKeyError (key : String)
  | typeError (msg : String)
  | indexError
deriving Repr, DecidableEq

/-- Association-list lookup, the embedding of Python `d[k]` / `k in d`
for string-keyed dicts. -/
def alookup {α : Type} : List (String × α) → String → Option α
  | [], _ => none
  | (k, v) :: rest, key => if k = key then some v else alookup rest key

/-- Association-list update with Python dict semantics: an existing key
keeps its position, a new key is appended at the end. -/
def aset {α : Type} : List (String × α) → String → α → List (String × α)
  | [], key, v => [(key, v)]
  | (k, w) :: rest, key, v =>
      if k = key then (k, v) :: rest else (k, w) :: aset rest key v

/-- A request parameter mapping (Python dict of query parameters). -/
abbrev Params := List (String × Val)

/-- Python `key in value` for the envelope checks of `bwdata.py`
(`"errors" in mentions`): key membership for dicts, element membership
for lists. -/
def pyHasKey (v : Val) (k : String) : Bool :=
  match v with
  | .vdict kvs => (alookup kvs k).isSome
  | .vlist xs => xs.contains (.vstr k)
  | _ => false

/-- Python `v[k]` with a string key: dict lookup, `KeyError` when the key
is absent, `TypeError` when the value is not a dict. -/
def pyIndex (v : Val) (k : String) : Except Err Val :=
  match v with
  | .vdict kvs =>
      match alookup kvs k with
      | some x => .ok x
      | none => .error (.dictKeyError k)
  | _ => .error (.typeError "string indices require a mapping")

/-- Python `v[i]` with an integer index on a list value. -/
def pyAt (v : Val) (i : Nat) : Except Err Val :=
  match v with
  | .vlist xs =>
      match xs.get? i with
      | some x => .ok x
      | none => .error .indexError
  | _ => .error (.typeError "integer indices require a sequence")

/-- A calendar date, modelling `datetime.date`. -/
structure Date where
  year : Nat
  month : Nat
  day : Nat
deriving Repr, DecidableEq

/-- Gregorian leap-year rule, as implemented by `datetime`. -/
def isLeap (y : Nat) : Bool :=
  (y % 4 = 0 && y % 100 ≠ 0) || y % 400 = 0

/-- Number of days of a month in the Gregorian calendar. -/
def daysInMonth (y m : Nat) : Nat :=
  if m = 2 then (if isLeap y then 29 else 28)
  else if m = 4 || m = 6 || m = 9 || m = 11 then 30
  else 31

/-- `d + datetime.timedelta(days=1)`. -/
def addOneDay (d : Date) : Date :=
  if d.day < daysInMonth d.year d.month then
    { d with day := d.day + 1 }
  else if d.month < 12 then
    { year := d.year, month := d.month + 1, day := 1 }
  else
    { year := d.year + 1, month := 1, day := 1 }

/-- Zero-padding of a number to a fixed width, as in ISO-8601 dates. -/
def padNum (w : Nat) (n : Nat) : String :=
  let s := toString n
  if s.length < w then String.mk (List.replicate (w - s.length) '0') ++ s
  else s

/-- `datetime.date.isoformat`: the YYYY-MM-DD form of a date. -/
def isoformat (d : Date) : String :=
  padNum 4 d.year ++ "-" ++ padNum 2 d.month ++ "-" ++ padNum 2 d.day

/-- One transport fetch: the endpoint string and the query parameters
passed to `project.get`. -/
abbrev Fetch := String × Params

/-- The HTTP collaborator. Modelled from the spec: `transport.get(endpoint,
params) -> JSON value` performs one HTTP GET-equivalent call and returns
parsed JSON (spec section 6); the transport object itself
(`bwproject.py`) is not under src. -/
abbrev Transport := String → Params → Val

/-- The per-instance state a `BWData` method reads.  `ids`,
`resource_id_name` and `resource_type` are the registry attributes the
source accesses on `self`.  Modelled from the spec: the registry is
populated by the resource classes (`bwresources.py`, not under src) and
is treated as the injected collaborator of spec section 6; `resolve` is
the injected per-filter-kind name-to-id lookup of spec section 4.2;
`fparams` and `foptions` are the static filter policy tables
`filters.params` and `filters.special_options` (`filters.py`, not under
src), per spec section 3 a read-only mapping from parameter name to an
expected type, respectively to a set of legal literal values; `today` is
the ambient clock `datetime.date.today()`. -/
structure BWData where
  ids : List (String × Int)
  resource_id_name : String
  resource_type : String
  today : Date
  resolve : String → Val → Val
  fparams : List (String × PyTy)
  foptions : List (String × List Val)

/-- Python truthiness of an optional string argument: `None` and the
empty string are falsy. -/
def truthyS : Option String → Bool
  | none => false
  | some s => !(s == "")

/-- Modelled from the spec: the parameter names whose values
`_name_to_id` (defined in `bwresources.py`, not under src) translates
from human-readable names to internal ids; every other value passes
through unchanged (spec section 4.2). -/
def idResolvedParams : List String := ["dim1Args", "dim2Args", "category", "tag"]

/-- Modelled from the spec: `_name_to_id` as an injected pure function
(spec section 4.2) — id-valued parameters go through the per-kind
resolver, all other values pass through unchanged. -/
def name_to_id (b : BWData) (param : String) (v : Val) : Val :=
  if idResolvedParams.contains param then b.resolve param v else v

/-- Embedding of `BWData._valid_input` (src/bwdata.py lines 615-621):
reject a type-checked parameter whose value is not an instance of the
declared type, then reject an enumerated parameter whose value is not a
member (Python `in`) of the declared legal-value list, accept anything
else. -/
def valid_input (b : BWData) (param : String) (setting : Val) : Bool :=
  if (alookup b.fparams param).isSome &&
      !(match alookup b.fparams param with
        | some ty => isinst ty setting
        | none => true) then
    false
  else if (match alookup b.foptions param with
        | some opts => !(opts.contains setting)
        | none => false) then
    false
  else
    true

/-- The `for param in data` loop of `_fill_params` (src/bwdata.py lines
597-602): resolve each caller filter, validate it, insert it, raising
`InvalidFilterError` (KeyError "invalid input for given parameter") on
the first failure. -/
def fillLoop (b : BWData) (filled : Params) : List (String × Val) → Except Err Params
  | [] => .ok filled
  | (param, v) :: rest =>
      let setting := name_to_id b param v
      if valid_input b param setting then
        fillLoop b (aset filled param setting) rest
      else
        .error (.invalidFilter param)

/-- Embedding of `BWData._fill_params` (src/bwdata.py lines 578-604):
require a truthy name, a registered name and a truthy start date, then
build the parameter dict — entity id under `resource_id_name`,
`startDate`, `endDate` (defaulting to tomorrow in ISO form), the
`orderBy`/`orderDirection` pass-through, and finally the validated
caller filters in insertion order. -/
def fill_params (b : BWData) (name startDate : Option String) (data : Params) : Except Err Params :=
  match name with
  | none => .error .missingName
  | some s =>
    if s = "" then .error .missingName
    else
      match alookup b.ids s with
      | none => .error (.unknownEntity s)
      | some i =>
        match startDate with
        | none => .error .missingStartDate
        | some sd =>
          if sd = "" then .error .missingStartDate
          else
            let f0 : Params := aset [] b.resource_id_name (.vint i)
            let f1 := aset f0 "startDate" (.vstr sd)
            let f2 := aset f1 "endDate"
              (match alookup data "endDate" with
               | some v => v
               | none => .vstr (isoformat (addOneDay b.today)))
            let f3 := match alookup data "orderBy" with
              | some v => aset f2 "orderBy" v
              | none => f2
            let f4 := match alookup data "orderDirection" with
              | some v => aset f3 "orderDirection" v
              | none => f3
            fillLoop b f4 data

/-- Sequencing of two fetch-logging computations: on failure the
exception propagates with the fetches issued so far, on success the logs
concatenate.  This mirrors straight-line Python code where an exception
aborts the remainder of the method. -/
def rbind {α β : Type} (x : List Fetch × Except Err α)
    (f : α → List Fetch × Except Err β) : List Fetch × Except Err β :=
  match x with
  | (log, .error e) => (log, .error e)
  | (log, .ok a) =>
      let y := f a
      (log ++ y.1, y.2)

/-- The shared shape of the one-shot accessor methods of `BWData`:
`_fill_params`, an optional parameter adjustment, one transport fetch,
and an unwrapping of the response envelope. -/
def simpleGet (b : BWData) (tr : Transport) (name startDate : Option String)
    (kwargs : Params) (tweak : Params → Params) (endpoint : String)
    (unwrap : Val → Except Err Val) : List Fetch × Except Err Val :=
  match fill_params b name startDate kwargs with
  | .error e => ([], .error e)
  | .ok params =>
      let ps := tweak params
      ([(endpoint, ps)], unwrap (tr endpoint ps))

/-- Embedding of `BWData.num_mentions` (src/bwdata.py lines 50-63):
returns the raw count envelope. -/
def num_mentions (b : BWData) (tr : Transport) (name startDate : Option String)
    (kwargs : Params) : List Fetch × Except Err Val :=
  simpleGet b tr name startDate kwargs id "data/mentions/count" .ok

/-- Embedding of `BWData.get_topics` (lines 95-108): unwraps `topics`. -/
def get_topics (b : BWData) (tr : Transport) (name startDate : Option String)
    (kwargs : Params) : List Fetch × Except Err Val :=
  simpleGet b tr name startDate kwargs id "data/volume/topics/queries"
    (fun r => pyIndex r "topics")

/-- Embedding of `BWData.get_topics_comparison` (lines 110-123). -/
def get_topics_comparison (b : BWData) (tr : Transport) (name startDate : Option String)
    (kwargs : Params) : List Fetch × Except Err Val :=
  simpleGet b tr name startDate kwargs id "data/volume/topics/compare/gender"
    (fun r => pyIndex r "topics")

/-- Embedding of `BWData.get_authors` (lines 125-138). -/
def get_authors (b : BWData) (tr : Transport) (name startDate : Option String)
    (kwargs : Params) : List Fetch × Except Err Val :=
  simpleGet b tr name startDate kwargs id "data/volume/topauthors/queries"
    (fun r => pyIndex r "results")

/-- Embedding of `BWData.get_history` (lines 140-153). -/
def get_history (b : BWData) (tr : Transport) (name startDate : Option String)
    (kwargs : Params) : List Fetch × Except Err Val :=
  simpleGet b tr name startDate kwargs id "data/volume/queries/days"
    (fun r => pyIndex r "results")

/-- Embedding of `BWData.get_topsites` (lines 155-168). -/
def get_topsites (b : BWData) (tr : Transport) (name startDate : Option String)
    (kwargs : Params) : List Fetch × Except Err Val :=
  simpleGet b tr name startDate kwargs id "data/volume/topsites/queries"
    (fun r => pyIndex r "results")

/-- Embedding of `BWData.get_tweeters` (lines 170-183). -/
def get_tweeters (b : BWData) (tr : Transport) (name startDate : Option String)
    (kwargs : Params) : List Fetch × Except Err Val :=
  simpleGet b tr name startDate kwargs id "data/volume/toptweeters/queries"
    (fun r => pyIndex r "results")

/-- Embedding of `BWData.get_volume` (lines 185-198). -/
def get_volume (b : BWData) (tr : Transport) (name startDate : Option String)
    (kwargs : Params) : List Fetch × Except Err Val :=
  simpleGet b tr name startDate kwargs id "data/volume/queries/pageTypes"
    (fun r => pyIndex r "results")

/-- Embedding of `BWData.get_world` (lines 200-213): unwraps
`results` then `values`. -/
def get_world (b : BWData) (tr : Transport) (name startDate : Option String)
    (kwargs : Params) : List Fetch × Except Err Val :=
  simpleGet b tr name startDate kwargs id "data/volume/queries/countries"
    (fun r => do pyIndex (← pyIndex r "results") "values")

/-- Embedding of `BWData.get_keyinsights_mention_count` (lines 234-247). -/
def get_keyinsights_mention_count (b : BWData) (tr : Transport)
    (name startDate : Option String) (kwargs : Params) : List Fetch × Except Err Val :=
  simpleGet b tr name startDate kwargs id "data/mentions/count"
    (fun r => pyIndex r "mentionsCount")

/-- Embedding of `BWData.get_keyinsights_author_count` (lines 249-262):
unwraps `results[0].values[0].value`. -/
def get_keyinsights_author_count (b : BWData) (tr : Transport)
    (name startDate : Option String) (kwargs : Params) : List Fetch × Except Err Val :=
  simpleGet b tr name startDate kwargs id "data/authors/months/queries"
    (fun r => do
      let a ← pyIndex r "results"
      let a0 ← pyAt a 0
      let v ← pyIndex a0 "values"
      let v0 ← pyAt v 0
      pyIndex v0 "value")

/-- Embedding of `BWData.get_keyinsights_topics` (lines 264-278): sets a
`limit` parameter defaulting to 3 before fetching. -/
def get_keyinsights_topics (b : BWData) (tr : Transport)
    (name startDate : Option String) (kwargs : Params) : List Fetch × Except Err Val :=
  simpleGet b tr name startDate kwargs
    (fun p => aset p "limit" ((alookup kwargs "limit").getD (.vint 3)))
    "data/volume/topics/queries" (fun r => pyIndex r "topics")

/-- Embedding of `BWData.get_keyinsights_news` (lines 280-294): sets a
`pageSize` parameter defaulting to 3 before fetching. -/
def get_keyinsights_news (b : BWData) (tr : Transport)
    (name startDate : Option String) (kwargs : Params) : List Fetch × Except Err Val :=
  simpleGet b tr name startDate kwargs
    (fun p => aset p "pageSize" ((alookup kwargs "pageSize").getD (.vint 3)))
    "data/mentions" (fun r => pyIndex r "results")

/-- Embedding of `BWData.get_keyinsights` (lines 215-231): the composite
key-insights component, four sub-calls invoked with only `name` and
`startDate` (the kwargs of the aggregator are not forwarded). -/
def get_keyinsights (b : BWData) (tr : Transport) (name startDate : Option String)
    (kwargs : Params) : List Fetch × Except Err Val :=
  rbind (get_keyinsights_mention_count b tr name startDate []) fun v1 =>
  rbind (get_keyinsights_author_count b tr name startDate []) fun v2 =>
  rbind (get_keyinsights_topics b tr name startDate []) fun v3 =>
  rbind (get_keyinsights_news b tr name startDate []) fun v4 =>
  ([], .ok (.vdict [("total_mentions", v1), ("unique_authors", v2),
                    ("topic_trends", v3), ("rising_news", v4)]))

/-- Embedding of `BWData.get_summary_sentiment` (lines 313-326). -/
def get_summary_sentiment (b : BWData) (tr : Transport) (name startDate : Option String)
    (kwargs : Params) : List Fetch × Except Err Val :=
  simpleGet b tr name startDate kwargs id "data/volume/sentiment/days"
    (fun r => pyIndex r "results")

/-- Embedding of `BWData.get_summary_topsites` (lines 328-341). -/
def get_summary_topsites (b : BWData) (tr : Transport) (name startDate : Option String)
    (kwargs : Params) : List Fetch × Except Err Val :=
  simpleGet b tr name startDate kwargs id "data/volume/topsites/queries"
    (fun r => pyIndex r "results")

/-- Embedding of `BWData.get_summary_pagetypes` (lines 343-356). -/
def get_summary_pagetypes (b : BWData) (tr : Transport) (name startDate : Option String)
    (kwargs : Params) : List Fetch × Except Err Val :=
  simpleGet b tr name startDate kwargs id "data/volume/queries/pageTypes"
    (fun r => pyIndex r "results")

/-- Embedding of `BWData.get_summary` (lines 296-311): the composite
summary component; sub-calls receive only `name` and `startDate`. -/
def get_summary (b : BWData) (tr : Transport) (name startDate : Option String)
    (kwargs : Params) : List Fetch × Except Err Val :=
  rbind (get_summary_sentiment b tr name startDate []) fun v1 =>
  rbind (get_summary_topsites b tr name startDate []) fun v2 =>
  rbind (get_summary_pagetypes b tr name startDate []) fun v3 =>
  ([], .ok (.vdict [("sentiment", v1), ("topsites", v2), ("pagetypes", v3)]))

/-- Embedding of `BWData.get_twitter_insights_feature` (lines 376-393):
requires a truthy `feature` discriminator, then fetches `data/{feature}`
and returns the raw envelope. -/
def get_twitter_insights_feature (b : BWData) (tr : Transport)
    (name startDate feature : Option String) (kwargs : Params) :
    List Fetch × Except Err Val :=
  if truthyS feature = false then ([], .error .missingFeature)
  else
    simpleGet b tr name startDate kwargs id ("data/" ++ feature.getD "") .ok

/-- Embedding of `BWData.get_twitter_insights` (lines 358-374): four
feature sub-calls with only `name` and `startDate` forwarded. -/
def get_twitter_insights (b : BWData) (tr : Transport) (name startDate : Option String)
    (kwargs : Params) : List Fetch × Except Err Val :=
  rbind (get_twitter_insights_feature b tr name startDate (some "hashtags") []) fun v1 =>
  rbind (get_twitter_insights_feature b tr name startDate (some "emoticons") []) fun v2 =>
  rbind (get_twitter_insights_feature b tr name startDate (some "urls") []) fun v3 =>
  rbind (get_twitter_insights_feature b tr name startDate (some "mentionedauthors") []) fun v4 =>
  ([], .ok (.vdict [("hashtags", v1), ("emoticons", v2), ("urls", v3),
                    ("mentionedauthors", v4)]))

/-- Embedding of `BWData.get_volume_group` (lines 395-408). -/
def get_volume_group (b : BWData) (tr : Transport) (name startDate : Option String)
    (kwargs : Params) : List Fetch × Except Err Val :=
  simpleGet b tr name startDate kwargs id "data/volume/queries/sentiment"
    (fun r => pyIndex r "results")

/-- Embedding of `BWData.get_fb_analytics_partial` (lines 458-476, the
method name ends in a reserved word of this development and is shortened
here): requires a truthy `metadata_type`, fetches
`data/{metadata_type}/queries/days` and unwraps `results[0]`. -/
def get_fb_analytics_sub (b : BWData) (tr : Transport)
    (name startDate metadata_type : Option String) (kwargs : Params) :
    List Fetch × Except Err Val :=
  if truthyS metadata_type = false then ([], .error .missingMetadataType)
  else
    simpleGet b tr name startDate kwargs id
      ("data/" ++ metadata_type.getD "" ++ "/queries/days")
      (fun r => do pyAt (← pyIndex r "results") 0)

/-- Embedding of `BWData.get_fb_analytics` (lines 439-456): four
metadata-type sub-calls with only `name` and `startDate` forwarded. -/
def get_fb_analytics (b : BWData) (tr : Transport) (name startDate : Option String)
    (kwargs : Params) : List Fetch × Except Err Val :=
  rbind (get_fb_analytics_sub b tr name startDate (some "audience") []) fun v1 =>
  rbind (get_fb_analytics_sub b tr name startDate (some "ownerActivity") []) fun v2 =>
  rbind (get_fb_analytics_sub b tr name startDate (some "audienceActivity") []) fun v3 =>
  rbind (get_fb_analytics_sub b tr name startDate (some "impressions") []) fun v4 =>
  ([], .ok (.vdict [("audience", v1), ("ownerActivity", v2),
                    ("audienceActivity", v3), ("impressions", v4)]))

/-- Embedding of `BWData.get_fb_audience` (lines 478-492). -/
def get_fb_audience (b : BWData) (tr : Transport) (name startDate : Option String)
    (kwargs : Params) : List Fetch × Except Err Val :=
  simpleGet b tr name startDate kwargs id "data/volume/topfacebookusers/queries"
    (fun r => pyIndex r "results")

/-- Embedding of `BWData.get_fb_comments` (lines 494-508). -/
def get_fb_comments (b : BWData) (tr : Transport) (name startDate : Option String)
    (kwargs : Params) : List Fetch × Except Err Val :=
  simpleGet b tr name startDate kwargs id "data/mentions/facebookcomments"
    (fun r => pyIndex r "results")

/-- Embedding of `BWData.get_fb_posts` (lines 510-524). -/
def get_fb_posts (b : BWData) (tr : Transport) (name startDate : Option String)
    (kwargs : Params) : List Fetch × Except Err Val :=
  simpleGet b tr name startDate kwargs id "data/mentions/facebookposts"
    (fun r => pyIndex r "results")

/-- Embedding of `BWData.get_ig_interactions_partial` (lines 543-561,
name shortened as for the facebook variant): requires a truthy
`metadata_type` and unwraps `results[0]`. -/
def get_ig_interactions_sub (b : BWData) (tr : Transport)
    (name startDate metadata_type : Option String) (kwargs : Params) :
    List Fetch × Except Err Val :=
  if truthyS metadata_type = false then ([], .error .missingMetadataType)
  else
    simpleGet b tr name startDate kwargs id
      ("data/" ++ metadata_type.getD "" ++ "/queries/days")
      (fun r => do pyAt (← pyIndex r "results") 0)

/-- Embedding of `BWData.get_ig_interactions` (lines 526-541): two
metadata-type sub-calls with only `name` and `startDate` forwarded. -/
def get_ig_interactions (b : BWData) (tr : Transport) (name startDate : Option String)
    (kwargs : Params) : List Fetch × Except Err Val :=
  rbind (get_ig_interactions_sub b tr name startDate (some "ownerActivity") []) fun v1 =>
  rbind (get_ig_interactions_sub b tr name startDate (some "audienceActivity") []) fun v2 =>
  ([], .ok (.vdict [("ownerActivity", v1), ("audienceActivity", v2)]))

/-- Embedding of `BWData.get_chart` (lines 65-93): requires all three
axes, resolves `dim1Args`/`dim2Args` through the name-to-id resolver
keyed by the axis, and fetches the chart endpoint. -/
def get_chart (b : BWData) (tr : Transport) (name startDate : Option String)
    (y_axis x_axis breakdown_by : Option String) (kwargs : Params) :
    List Fetch × Except Err Val :=
  if !(truthyS y_axis && truthyS x_axis && truthyS breakdown_by) then
    ([], .error .missingChartAxes)
  else
    simpleGet b tr name startDate kwargs
      (fun p =>
        let p1 := match alookup p "dim1Args" with
          | some v => aset p "dim1Args" (name_to_id b (x_axis.getD "") v)
          | none => p
        match alookup p1 "dim2Args" with
          | some v => aset p1 "dim2Args" (name_to_id b (breakdown_by.getD "") v)
          | none => p1)
      ("data/" ++ y_axis.getD "" ++ "/" ++ x_axis.getD "" ++ "/" ++ breakdown_by.getD "")
      .ok

/-- The loop guard of `get_mentions` (src/bwdata.py line 33):
`max_pages == None or params["page"] < max_pages`. -/
def loopCond (maxp : Option Int) (page : Int) : Bool :=
  match maxp with
  | none => true
  | some m => page < m

/-- Embedding of the `while` loop of `BWData.get_mentions` (lines 33-44)
together with `_get_mentions_page` (lines 606-613), with an explicit
fuel bound: `none` means the loop was still running when the fuel ran
out, so a `some` result is one the Python loop actually produces.  Each
iteration sets `params["page"]`, fetches the full-text mentions
endpoint, raises `MentionsFetchError` when the envelope has an `errors`
key, otherwise unwraps `results`; a non-empty page is appended to the
accumulator and the page index incremented, an empty page breaks the
loop. -/
def mentionsLoop (tr : Transport) (params : Params) (maxp : Option Int) :
    Nat → Int → List Val → Option (List Fetch × Except Err (List Val))
  | 0, page, acc =>
      if loopCond maxp page then none else some ([], .ok acc)
  | fuel + 1, page, acc =>
      if loopCond maxp page then
        let ps := aset params "page" (.vint page)
        let env := tr "data/mentions/fulltext" ps
        if pyHasKey env "errors" then
          some ([("data/mentions/fulltext", ps)], .error .mentionsFetch)
        else
          match pyIndex env "results" with
          | .ok (.vlist xs) =>
              if 0 < xs.length then
                match mentionsLoop tr params maxp fuel (page + 1) (acc ++ xs) with
                | none => none
                | some (calls, r) =>
                    some (("data/mentions/fulltext", ps) :: calls, r)
              else
                some ([("data/mentions/fulltext", ps)], .ok acc)
          | .ok _ =>
              some ([("data/mentions/fulltext", ps)],
                    .error (.typeError "object has no len"))
          | .error e => some ([("data/mentions/fulltext", ps)], .error e)
      else
        some ([], .ok acc)

/-- Embedding of `BWData.get_mentions` (src/bwdata.py lines 11-48):
fill the parameters, default `pageSize` to 5000 and the starting page
index to 0 (both overridable through kwargs), then run the pagination
loop.  Integer-valued `page` kwargs are modelled; the result is `none`
only when the fuel is insufficient. -/
def get_mentions (b : BWData) (tr : Transport) (name startDate : Option String)
    (max_pages : Option Int) (kwargs : Params) (fuel : Nat) :
    Option (List Fetch × Except Err (List Val)) :=
  match fill_params b name startDate kwargs with
  | .error e => some ([], .error e)
  | .ok params =>
      let p1 := aset params "pageSize" ((alookup kwargs "pageSize").getD (.vint 5000))
      let startPage : Int := match alookup kwargs "page" with
        | some (.vint n) => n
        | _ => 0
      let p2 := aset p1 "page" (.vint startPage)
      mentionsLoop tr p2 max_pages fuel startPage []

/-- Observation of a pagination outcome: number of fetches issued,
whether every fetch hit the full-text mentions endpoint, and the
returned value or exception. -/
def mentionsObs : Option (List Fetch × Except Err (List Val)) →
    Option (Nat × Bool × Except Err (List Val))
  | none => none
  | some (calls, r) =>
      some (calls.length, calls.all (fun c => c.1 = "data/mentions/fulltext"), r)

/-- The filtering list comprehension of `get_date_range_comparison`
(src/bwdata.py line 428): for each date-range record evaluate
`dr["name"] in date_ranges` — a `TypeError` when `date_ranges` is
`None` — and keep `dr["id"]` of the matching records. -/
def collectDateRangeIds (date_ranges : Option (List String)) :
    List Val → Except Err (List Val)
  | [] => .ok []
  | dr :: rest => do
      let nm ← pyIndex dr "name"
      match date_ranges with
      | none => .error (.typeError "argument of type NoneType is not iterable")
      | some drs =>
          if (match nm with | .vstr s => drs.contains s | _ => false) then
            let i ← pyIndex dr "id"
            let tl ← collectDateRangeIds date_ranges rest
            .ok (i :: tl)
          else
            collectDateRangeIds date_ranges rest

/-- Embedding of `BWData.get_date_range_comparison` (src/bwdata.py lines
410-435) with `_get_date_ranges` (lines 564-576) inlined as its one
transport fetch: the entity id is read from the registry (a raw
`KeyError` for a missing key), the date-range list is fetched over the
network, the supplied names are resolved to ids, an empty resolution or
an absent `date_ranges` argument raises `InvalidDateRangeError`, and
only then are the request parameters filled and the comparison endpoint
fetched. -/
def get_date_range_comparison (b : BWData) (tr : Transport)
    (name startDate : Option String) (date_ranges : Option (List String))
    (kwargs : Params) : List Fetch × Except Err Val :=
  match (match name with | some s => (alookup b.ids s).map (fun i => (s, i)) | none => none) with
  | none => ([], .error (.dictKeyError (name.getD "None")))
  | some (_, qid) =>
      let drEndpoint := "queries/" ++ toString qid ++ "/" ++ "date-range"
      let drList := tr drEndpoint []
      let fetches := [(drEndpoint, ([] : Params))]
      match drList with
      | .vlist drs =>
          match collectDateRangeIds date_ranges drs with
          | .error e => (fetches, .error e)
          | .ok ids =>
              if ids = [] || date_ranges = none then
                (fetches, .error .invalidDateRange)
              else
                match fill_params b name startDate kwargs with
                | .error e => (fetches, .error e)
                | .ok params =>
                    let ps := aset params "dateRanges" (.vlist ids)
                    (fetches ++ [("data/volume/dateRanges/days", ps)],
                     pyIndex (tr "data/volume/dateRanges/days" ps) "results")
      | _ => (fetches, .error (.typeError "object is not iterable"))

theorem alookup_aset_self {α : Type} (d : List (String × α)) (k : String) (v : α) :
    alookup (aset d k v) k = some v := by
  induction d with
  | nil => simp [aset, alookup]
  | cons hd tl ih =>
      obtain ⟨k0, v0⟩ := hd
      by_cases h : k0 = k
      · simp [aset, alookup, h]
      · simp [aset, alookup, h, ih]

theorem alookup_aset_ne {α : Type} (d : List (String × α)) (k k' : String) (v : α)
    (h : k ≠ k') : alookup (aset d k v) k' = alookup d k' := by
  induction d with
  | nil => simp [aset, alookup, h]
  | cons hd tl ih =>
      obtain ⟨k0, v0⟩ := hd
      by_cases h0 : k0 = k
      · subst h0
        simp [aset, alookup, h]
      · simp only [aset, if_neg h0, alookup]
        by_cases h1 : k0 = k'
        · simp [h1]
        · simp [h1, ih]

theorem truthyS_false_iff (o : Option String) :
    truthyS o = false ↔ o = none ∨ o = some "" := by
  cases o with
  | none => simp [truthyS]
  | some s => simp [truthyS]

theorem fill_params_missingName (b : BWData) (name startDate : Option String)
    (data : Params) (h : truthyS name = false) :
    fill_params b name startDate data = .error .missingName := by
  rcases (truthyS_false_iff name).mp h with h1 | h1 <;> subst h1 <;> simp [fill_params]

theorem fill_params_unknownEntity (b : BWData) (s : String) (startDate : Option String)
    (data : Params) (hs : s ≠ "") (hu : alookup b.ids s = none) :
    fill_params b (some s) startDate data = .error (.unknownEntity s) := by
  simp [fill_params, hs, hu]

theorem fill_params_missingStartDate (b : BWData) (s : String) (i : Int)
    (startDate : Option String) (data : Params) (hs : s ≠ "")
    (hi : alookup b.ids s = some i) (hd : truthyS startDate = false) :
    fill_params b (some s) startDate data = .error .missingStartDate := by
  rcases (truthyS_false_iff startDate).mp hd with h1 | h1 <;> subst h1 <;>
    simp [fill_params, hs, hi]

theorem fill_params_nil_eq (b : BWData) (s sd : String) (i : Int)
    (hs : s ≠ "") (hi : alookup b.ids s = some i) (hd : sd ≠ "") :
    fill_params b (some s) (some sd) [] =
      .ok (aset (aset (aset [] b.resource_id_name (.vint i)) "startDate" (.vstr sd))
             "endDate" (.vstr (isoformat (addOneDay b.today)))) := by
  simp [fill_params, hs, hi, hd, alookup, fillLoop]

theorem aset_three_distinct (rid : String) (v1 v2 v3 : Val)
    (h1 : rid ≠ "startDate") (h2 : rid ≠ "endDate") :
    aset (aset (aset ([] : Params) rid v1) "startDate" v2) "endDate" v3 =
      [(rid, v1), ("startDate", v2), ("endDate", v3)] := by
  simp [aset, h1, h2]

theorem simpleGet_fillErr (b : BWData) (tr : Transport) (name startDate : Option String)
    (kwargs : Params) (tweak : Params → Params) (endpoint : String)
    (unwrap : Val → Except Err Val) (e : Err)
    (h : fill_params b name startDate kwargs = .error e) :
    simpleGet b tr name startDate kwargs tweak endpoint unwrap = ([], .error e) := by
  simp [simpleGet, h]

theorem mentionsLoop_done (tr : Transport) (params : Params) (maxp : Option Int)
    (page : Int) (acc : List Val) (fuel : Nat) (hc : loopCond maxp page = false) :
    mentionsLoop tr params maxp fuel page acc = some ([], .ok acc) := by
  cases fuel <;> simp [mentionsLoop, hc]

theorem mentionsLoop_step_err (tr : Transport) (params : Params) (maxp : Option Int)
    (page : Int) (acc : List Val) (fuel : Nat) (hf : 0 < fuel)
    (hc : loopCond maxp page = true)
    (he : pyHasKey (tr "data/mentions/fulltext" (aset params "page" (.vint page)))
            "errors" = true) :
    mentionsLoop tr params maxp fuel page acc =
      some ([("data/mentions/fulltext", aset params "page" (.vint page))],
            .error .mentionsFetch) := by
  obtain ⟨f, rfl⟩ : ∃ f, fuel = f + 1 := ⟨fuel - 1, by omega⟩
  simp [mentionsLoop, hc, he]

theorem mentionsLoop_step_empty (tr : Transport) (params : Params) (maxp : Option Int)
    (page : Int) (acc : List Val) (fuel : Nat) (hf : 0 < fuel)
    (hc : loopCond maxp page = true)
    (he : pyHasKey (tr "data/mentions/fulltext" (aset params "page" (.vint page)))
            "errors" = false)
    (hr : pyIndex (tr "data/mentions/fulltext" (aset params "page" (.vint page)))
            "results" = .ok (.vlist [])) :
    mentionsLoop tr params maxp fuel page acc =
      some ([("data/mentions/fulltext", aset params "page" (.vint page))], .ok acc) := by
  obtain ⟨f, rfl⟩ : ∃ f, fuel = f + 1 := ⟨fuel - 1, by omega⟩
  simp [mentionsLoop, hc, he, hr]

theorem mentionsLoop_step_ok (tr : Transport) (params : Params) (maxp : Option Int)
    (page : Int) (acc : List Val) (fuel : Nat) (xs : List Val) (hf : 0 < fuel)
    (hc : loopCond maxp page = true)
    (he : pyHasKey (tr "data/mentions/fulltext" (aset params "page" (.vint page)))
            "errors" = false)
    (hr : pyIndex (tr "data/mentions/fulltext" (aset params "page" (.vint page)))
            "results" = .ok (.vlist xs))
    (hx : 0 < xs.length) :
    mentionsLoop tr params maxp fuel page acc =
      (mentionsLoop tr params maxp (fuel - 1) (page + 1) (acc ++ xs)).map
        (fun pr => (("data/mentions/fulltext", aset params "page" (.vint page)) :: pr.1,
                    pr.2)) := by
  obtain ⟨f, rfl⟩ : ∃ f, fuel = f + 1 := ⟨fuel - 1, by omega⟩
  cases hm : mentionsLoop tr params maxp f (page + 1) (acc ++ xs) with
  | none => simp [mentionsLoop, hc, he, hr, hx, hm]
  | some pr =>
      obtain ⟨calls, r⟩ := pr
      simp [mentionsLoop, hc, he, hr, hx, hm]

/-- A transport page as the claims describe it: whenever the request
parameters carry the given page index, the full-text mentions response
is a clean envelope whose `results` are exactly `xs`. -/
def pageGood (tr : Transport) (page : Int) (xs : List Val) : Prop :=
  ∀ ps : Params, alookup ps "page" = some (.vint page) →
    pyHasKey (tr "data/mentions/fulltext" ps) "errors" = false ∧
    pyIndex (tr "data/mentions/fulltext" ps) "results" = .ok (.vlist xs)

/-- A transport page whose envelope signals failure via an `errors` key
whenever the request parameters carry the given page index. -/
def pageErrs (tr : Transport) (page : Int) : Prop :=
  ∀ ps : Params, alookup ps "page" = some (.vint page) →
    pyHasKey (tr "data/mentions/fulltext" ps) "errors" = true

theorem mentionsLoop_isSome_of_cap (tr : Transport) (params : Params) (m : Int) :
    ∀ (fuel : Nat) (page : Int) (acc : List Val), (m - page).toNat ≤ fuel →
      (mentionsLoop tr params (some m) fuel page acc).isSome = true := by
  intro fuel
  induction fuel with
  | zero =>
      intro page acc h
      have hpm : ¬ (page < m) := by omega
      have hc : loopCond (some m) page = false := by simp [loopCond, hpm]
      simp [mentionsLoop, hc]
  | succ f ih =>
      intro page acc h
      by_cases hpm : page < m
      · have hc : loopCond (some m) page = true := by simp [loopCond, hpm]
        simp only [mentionsLoop, hc, if_true]
        cases he : pyHasKey (tr "data/mentions/fulltext" (aset params "page" (.vint page)))
            "errors" with
        | true => simp [he]
        | false =>
            cases hr : pyIndex (tr "data/mentions/fulltext" (aset params "page" (.vint page)))
                "results" with
            | error e => simp [he, hr]
            | ok v =>
                cases v with
                | vstr s => simp [he, hr]
                | vint n => simp [he, hr]
                | vdict kvs => simp [he, hr]
                | vlist xs =>
                    by_cases hx : 0 < xs.length
                    · have hrec := ih (page + 1) (acc ++ xs) (by omega)
                      cases hm : mentionsLoop tr params (some m) f (page + 1) (acc ++ xs) with
                      | none => rw [hm] at hrec; simp at hrec
                      | some pr =>
                          obtain ⟨calls, r⟩ := pr
                          simp [he, hr, hx, hm]
                    · simp [he, hr, hx]
      · have hc : loopCond (some m) page = false := by simp [loopCond, hpm]
        rw [mentionsLoop_done _ _ _ _ _ _ hc]
        rfl

theorem mentionsLoop_isSome_of_emptyPage (tr : Transport) (params : Params)
    (maxp : Option Int) (N : Int) (hN : pageGood tr N []) :
    ∀ (fuel : Nat) (page : Int) (acc : List Val),
      page ≤ N → (N - page).toNat + 1 ≤ fuel →
      (mentionsLoop tr params maxp fuel page acc).isSome = true := by
  intro fuel
  induction fuel with
  | zero => intro page acc hle h; omega
  | succ f ih =>
      intro page acc hle h
      by_cases hc : loopCond maxp page = true
      · by_cases hpN : page = N
        · subst hpN
          rw [mentionsLoop_step_empty _ _ _ _ _ _ (by omega) hc
                (hN _ (alookup_aset_self _ _ _)).1 (hN _ (alookup_aset_self _ _ _)).2]
          rfl
        · simp only [mentionsLoop, hc, if_true]
          cases he : pyHasKey (tr "data/mentions/fulltext" (aset params "page" (.vint page)))
              "errors" with
          | true => simp [he]
          | false =>
              cases hr : pyIndex (tr "data/mentions/fulltext" (aset params "page" (.vint page)))
                  "results" with
              | error e => simp [he, hr]
              | ok v =>
                  cases v with
                  | vstr s => simp [he, hr]
                  | vint n => simp [he, hr]
                  | vdict kvs => simp [he, hr]
                  | vlist xs =>
                      by_cases hx : 0 < xs.length
                      · have hrec := ih (page + 1) (acc ++ xs) (by omega) (by omega)
                        cases hm : mentionsLoop tr params maxp f (page + 1) (acc ++ xs) with
                        | none => rw [hm] at hrec; simp at hrec
                        | some pr =>
                            obtain ⟨calls, r⟩ := pr
                            simp [he, hr, hx, hm]
                      · simp [he, hr, hx]
      · rw [mentionsLoop_done _ _ _ _ _ _ (by simpa using hc)]
        rfl

theorem mentionsObs_cons (x : Option (List Fetch × Except Err (List Val))) (ps : Params) :
    mentionsObs (x.map (fun pr => (("data/mentions/fulltext", ps) :: pr.1, pr.2))) =
      (mentionsObs x).map (fun o => (o.1 + 1, o.2.1, o.2.2)) := by
  cases x with
  | none => rfl
  | some pr =>
      obtain ⟨calls, r⟩ := pr
      simp [mentionsObs]

theorem mentionsLoop_err_at (tr : Transport) (params : Params) (maxp : Option Int) :
    ∀ (k : Nat) (ms : Nat → List Val) (page : Int) (acc : List Val) (fuel : Nat),
      (∀ j : Nat, j < k → loopCond maxp (page + (j : Int)) = true ∧
        pageGood tr (page + (j : Int)) (ms j) ∧ 0 < (ms j).length) →
      loopCond maxp (page + (k : Int)) = true →
      pageErrs tr (page + (k : Int)) →
      k + 1 ≤ fuel →
      mentionsObs (mentionsLoop tr params maxp fuel page acc) =
        some (k + 1, true, .error .mentionsFetch) := by
  intro k
  induction k with
  | zero =>
      intro ms page acc fuel hgood hck herr hf
      have hck' : loopCond maxp page = true := by simpa using hck
      have herr' : pageErrs tr page := by simpa using herr
      rw [mentionsLoop_step_err _ _ _ _ _ _ (by omega) hck'
            (herr' _ (alookup_aset_self _ _ _))]
      simp [mentionsObs]
  | succ k ih =>
      intro ms page acc fuel hgood hck herr hf
      have h0 := hgood 0 (by omega)
      have hc0 : loopCond maxp page = true := by simpa using h0.1
      have hg0 : pageGood tr page (ms 0) := by simpa using h0.2.1
      rw [mentionsLoop_step_ok _ _ _ page _ _ (ms 0) (by omega) hc0
            (hg0 _ (alookup_aset_self _ _ _)).1 (hg0 _ (alookup_aset_self _ _ _)).2 h0.2.2]
      rw [mentionsObs_cons]
      have hshift : ∀ j : Nat, page + ((j + 1 : Nat) : Int) = page + 1 + (j : Int) := by
        intro j; push_cast; ring
      have hrec := ih (fun j => ms (j + 1)) (page + 1) (acc ++ ms 0) (fuel - 1)
        (fun j hj => by
          have := hgood (j + 1) (by omega)
          rw [hshift j] at this
          exact this)
        (by have := hck; rw [hshift k] at this; exact this)
        (by have := herr; rw [hshift k] at this; exact this)
        (by omega)
      rw [hrec]
      rfl

/-- C1: for every transport whose pages of the paginated mention-search
endpoint contain 5000, 5000 and 0 results in that order, `get_mentions`
called with a valid name and start date, no `max_pages`, and the default
`page`/`pageSize` returns the concatenation of the two non-empty pages —
exactly 10000 mentions in page order — and issues exactly 3 page-fetch
calls (given enough fuel for the loop to finish). -/
theorem C1_three_page_pagination (b : BWData) (tr : Transport) (name sd : String)
    (i : Int) (m0 m1 : List Val) (fuel : Nat)
    (hname : name ≠ "") (hreg : alookup b.ids name = some i) (hsd : sd ≠ "")
    (h0 : pageGood tr 0 m0) (h1 : pageGood tr 1 m1) (h2 : pageGood tr 2 [])
    (hl0 : m0.length = 5000) (hl1 : m1.length = 5000) (hfuel : 3 ≤ fuel) :
    mentionsObs (get_mentions b tr (some name) (some sd) none [] fuel) =
      some (3, true, .ok (m0 ++ m1)) ∧ (m0 ++ m1).length = 10000 := by
  have hfp := fill_params_nil_eq b name sd i hname hreg hsd
  constructor
  · have hg : get_mentions b tr (some name) (some sd) none [] fuel =
        mentionsLoop tr
          (aset (aset (aset (aset (aset [] b.resource_id_name (.vint i)) "startDate"
            (.vstr sd)) "endDate" (.vstr (isoformat (addOneDay b.today))))
            "pageSize" (.vint 5000)) "page" (.vint 0)) none fuel 0 [] := by
      simp [get_mentions, hfp, alookup]
    rw [hg]
    rw [mentionsLoop_step_ok _ _ none 0 _ _ m0 (by omega) rfl
          (h0 _ (alookup_aset_self _ _ _)).1 (h0 _ (alookup_aset_self _ _ _)).2
          (by omega)]
    norm_num
    rw [mentionsLoop_step_ok _ _ none 1 _ _ m1 (by omega) rfl
          (h1 _ (alookup_aset_self _ _ _)).1 (h1 _ (alookup_aset_self _ _ _)).2
          (by omega)]
    norm_num
    rw [mentionsLoop_step_empty _ _ none 2 _ _ (by omega) rfl
          (h2 _ (alookup_aset_self _ _ _)).1 (h2 _ (alookup_aset_self _ _ _)).2]
    simp [mentionsObs]
  · simp [hl0, hl1]

/-- C2: first, `get_mentions` with `max_pages = 2` and the default
starting page index 0 issues exactly 2 page-fetch calls when both
fetched pages are non-empty, regardless of page contents; second, a
fetched empty page immediately stops the loop under every `max_pages`
setting; third and fourth, the loop always terminates — a `some` result
with bounded fuel — when `max_pages` is set, respectively when the
transport returns an empty page at some reachable page index. -/
theorem C2_cap_and_termination :
    (∀ (b : BWData) (tr : Transport) (name sd : String) (i : Int)
        (x0 x1 : List Val) (fuel : Nat),
        name ≠ "" → alookup b.ids name = some i → sd ≠ "" →
        pageGood tr 0 x0 → pageGood tr 1 x1 →
        0 < x0.length → 0 < x1.length → 2 ≤ fuel →
        mentionsObs (get_mentions b tr (some name) (some sd) (some 2) [] fuel) =
          some (2, true, .ok (x0 ++ x1))) ∧
    (∀ (tr : Transport) (params : Params) (maxp : Option Int) (page : Int)
        (acc : List Val) (fuel : Nat),
        0 < fuel → loopCond maxp page = true → pageGood tr page [] →
        mentionsLoop tr params maxp fuel page acc =
          some ([("data/mentions/fulltext", aset params "page" (.vint page))], .ok acc)) ∧
    (∀ (tr : Transport) (params : Params) (m page : Int) (acc : List Val) (fuel : Nat),
        (m - page).toNat ≤ fuel →
        (mentionsLoop tr params (some m) fuel page acc).isSome = true) ∧
    (∀ (tr : Transport) (params : Params) (maxp : Option Int) (page N : Int)
        (acc : List Val) (fuel : Nat),
        pageGood tr N [] → page ≤ N → (N - page).toNat + 1 ≤ fuel →
        (mentionsLoop tr params maxp fuel page acc).isSome = true) := by
  refine ⟨?_, ?_, ?_, ?_⟩
  · intro b tr name sd i x0 x1 fuel hname hreg hsd h0 h1 hx0 hx1 hfuel
    have hfp := fill_params_nil_eq b name sd i hname hreg hsd
    have hg : get_mentions b tr (some name) (some sd) (some 2) [] fuel =
        mentionsLoop tr
          (aset (aset (aset (aset (aset [] b.resource_id_name (.vint i)) "startDate"
            (.vstr sd)) "endDate" (.vstr (isoformat (addOneDay b.today))))
            "pageSize" (.vint 5000)) "page" (.vint 0)) (some 2) fuel 0 [] := by
      simp [get_mentions, hfp, alookup]
    rw [hg]
    rw [mentionsLoop_step_ok _ _ (some 2) 0 _ _ x0 (by omega) (by decide)
          (h0 _ (alookup_aset_self _ _ _)).1 (h0 _ (alookup_aset_self _ _ _)).2 hx0]
    norm_num
    rw [mentionsLoop_step_ok _ _ (some 2) 1 _ _ x1 (by omega) (by decide)
          (h1 _ (alookup_aset_self _ _ _)).1 (h1 _ (alookup_aset_self _ _ _)).2 hx1]
    norm_num
    rw [mentionsLoop_done _ _ (some 2) 2 _ _ (by decide)]
    simp [mentionsObs]
  · intro tr params maxp page acc fuel hf hc hg
    exact mentionsLoop_step_empty _ _ _ _ _ _ hf hc
      (hg _ (alookup_aset_self _ _ _)).1 (hg _ (alookup_aset_self _ _ _)).2
  · intro tr params m page acc fuel h
    exact mentionsLoop_isSome_of_cap tr params m fuel page acc h
  · intro tr params maxp page N acc fuel hN hle h
    exact mentionsLoop_isSome_of_emptyPage tr params maxp N hN fuel page acc hle h

/-- C7: in every pagination run in which some fetched page envelope
contains an `errors` key (after `k` clean non-empty pages),
`get_mentions` fails with `MentionsFetchError` immediately at that page
— exactly `k + 1` fetches are issued — and the mentions accumulated from
the earlier pages are discarded: the outcome is the bare exception, not
a partial result. -/
theorem C7_errors_key_aborts (b : BWData) (tr : Transport) (name sd : String) (i : Int)
    (maxp : Option Int) (k : Nat) (ms : Nat → List Val) (fuel : Nat)
    (hname : name ≠ "") (hreg : alookup b.ids name = some i) (hsd : sd ≠ "")
    (hgood : ∀ j : Nat, j < k → loopCond maxp (j : Int) = true ∧
        pageGood tr (j : Int) (ms j) ∧ 0 < (ms j).length)
    (hck : loopCond maxp (k : Int) = true)
    (herr : pageErrs tr (k : Int))
    (hf : k + 1 ≤ fuel) :
    mentionsObs (get_mentions b tr (some name) (some sd) maxp [] fuel) =
      some (k + 1, true, .error .mentionsFetch) := by
  have hfp := fill_params_nil_eq b name sd i hname hreg hsd
  have hg : get_mentions b tr (some name) (some sd) maxp [] fuel =
      mentionsLoop tr
        (aset (aset (aset (aset (aset [] b.resource_id_name (.vint i)) "startDate"
          (.vstr sd)) "endDate" (.vstr (isoformat (addOneDay b.today))))
          "pageSize" (.vint 5000)) "page" (.vint 0)) maxp fuel 0 [] := by
    simp [get_mentions, hfp, alookup]
  rw [hg]
  exact mentionsLoop_err_at tr _ maxp k ms 0 [] fuel
    (fun j hj => by simpa using hgood j hj)
    (by simpa using hck) (by simpa using herr) hf

/-- A concrete registry state used by the concrete instances below. -/
def wB : BWData :=
  { ids := [("q", 7)], resource_id_name := "queryId", resource_type := "queries",
    today := { year := 2024, month := 6, day := 1 },
    resolve := fun _ v => v, fparams := [], foptions := [] }

/-- 5000 mentions for page 0 of the concrete transport. -/
def wM0 : List Val := List.replicate 5000 (.vstr "m")

/-- 5000 mentions for page 1 of the concrete transport. -/
def wM1 : List Val := List.replicate 5000 (.vstr "n")

/-- A concrete transport serving 5000, 5000 and 0 full-text results on
pages 0, 1 and every later page. -/
def wTr : Transport := fun _ ps =>
  match alookup ps "page" with
  | some (.vint 0) => .vdict [("results", .vlist wM0)]
  | some (.vint 1) => .vdict [("results", .vlist wM1)]
  | _ => .vdict [("results", .vlist [])]

/-- Witness for C1 at the concrete registry, transport and pages. -/
theorem C1_three_page_pagination_witness :
    mentionsObs (get_mentions wB wTr (some "q") (some "2024-01-01") none [] 3) =
      some (3, true, .ok (wM0 ++ wM1)) ∧ (wM0 ++ wM1).length = 10000 :=
  C1_three_page_pagination wB wTr "q" "2024-01-01" 7 wM0 wM1 3
    (by decide) (by rfl) (by decide)
    (fun ps h => by constructor <;> simp [wTr, h, pyHasKey, pyIndex, alookup])
    (fun ps h => by constructor <;> simp [wTr, h, pyHasKey, pyIndex, alookup])
    (fun ps h => by constructor <;> simp [wTr, h, pyHasKey, pyIndex, alookup])
    (by unfold wM0; rw [List.length_replicate]) (by unfold wM1; rw [List.length_replicate]) (by omega)

/-- Witness for C2, instantiating the page cap part at the concrete
transport: 2 fetches despite further non-empty pages being available. -/
theorem C2_cap_and_termination_witness :
    mentionsObs (get_mentions wB wTr (some "q") (some "2024-01-01") (some 2) [] 2) =
      some (2, true, .ok (wM0 ++ wM1)) :=
  C2_cap_and_termination.1 wB wTr "q" "2024-01-01" 7 wM0 wM1 2
    (by decide) (by rfl) (by decide)
    (fun ps h => by constructor <;> simp [wTr, h, pyHasKey, pyIndex, alookup])
    (fun ps h => by constructor <;> simp [wTr, h, pyHasKey, pyIndex, alookup])
    (by unfold wM0; rw [List.length_replicate]; omega) (by unfold wM1; rw [List.length_replicate]; omega) (by omega)

/-- A concrete transport whose every response signals failure through an
`errors` key. -/
def wTrE : Transport := fun _ _ => .vdict [("errors", .vstr "fail")]

/-- Witness for C7: the failing envelope on the first page aborts the
pagination with `MentionsFetchError` after exactly one fetch. -/
theorem C7_errors_key_aborts_witness :
    mentionsObs (get_mentions wB wTrE (some "q") (some "2024-01-01") none [] 1) =
      some (1, true, .error .mentionsFetch) :=
  C7_errors_key_aborts wB wTrE "q" "2024-01-01" 7 none 0 (fun _ => []) 1
    (by decide) (by rfl) (by decide)
    (fun j hj => absurd hj (by omega))
    (by rfl) (fun ps _ => by rfl) (by omega)

/-- C10: the required-argument checks of `_fill_params` run in a fixed
priority order — missing name, then unknown name, then missing start
date: with both name and startDate falsy the reported failure is the
missing-name error, and with an unknown name and falsy startDate it is
the unknown-entity error. -/
theorem C10_check_priority_order :
    (∀ (b : BWData) (name startDate : Option String) (data : Params),
        truthyS name = false → truthyS startDate = false →
        fill_params b name startDate data = .error .missingName) ∧
    (∀ (b : BWData) (s : String) (startDate : Option String) (data : Params),
        s ≠ "" → alookup b.ids s = none → truthyS startDate = false →
        fill_params b (some s) startDate data = .error (.unknownEntity s)) := by
  constructor
  · intro b name sd data h _
    exact fill_params_missingName b name sd data h
  · intro b s sd data hs hu _
    exact fill_params_unknownEntity b s sd data hs hu

/-- Witness for C10 at a concrete registry. -/
theorem C10_check_priority_order_witness :
    fill_params wB none none [] = .error .missingName ∧
    fill_params wB (some "zz") none [] = .error (.unknownEntity "zz") :=
  ⟨C10_check_priority_order.1 wB none none [] (by rfl) (by rfl),
   C10_check_priority_order.2 wB "zz" none [] (by decide) (by decide) (by rfl)⟩

/-- C9: the composite aggregators accept extra keyword filters but do
not forward them to their sub-calls — the sub-calls receive only `name`
and `startDate` — so for any two keyword-filter mappings and identical
name and start date each aggregator returns the identical result. -/
theorem C9_aggregators_ignore_kwargs (b : BWData) (tr : Transport)
    (name startDate : Option String) (k1 k2 : Params) :
    get_summary b tr name startDate k1 = get_summary b tr name startDate k2 ∧
    get_keyinsights b tr name startDate k1 = get_keyinsights b tr name startDate k2 ∧
    get_twitter_insights b tr name startDate k1 = get_twitter_insights b tr name startDate k2 ∧
    get_fb_analytics b tr name startDate k1 = get_fb_analytics b tr name startDate k2 ∧
    get_ig_interactions b tr name startDate k1 = get_ig_interactions b tr name startDate k2 :=
  ⟨rfl, rfl, rfl, rfl, rfl⟩

/-- A registry that maps the empty string to an entity id. -/
def cbEmptyName : BWData :=
  { ids := [("", 1)], resource_id_name := "queryId", resource_type := "queries",
    today := { year := 2024, month := 6, day := 1 },
    resolve := fun _ v => v, fparams := [], foptions := [] }

/-- A registry whose resource id key is the literal string `startDate`. -/
def cbRidClash : BWData :=
  { ids := [("q", 7)], resource_id_name := "startDate", resource_type := "queries",
    today := { year := 2024, month := 6, day := 1 },
    resolve := fun _ v => v, fparams := [], foptions := [] }

/-- Counterexample for C3: first, a name present in the registry can
still be rejected — the empty string is falsy, so `_fill_params` raises
the missing-name error although the registry contains it; second, when
the resource id key collides with `startDate` the resulting mapping has
two keys, not three, because the start date overwrites the entity id. -/
theorem C3_counterexample :
    fill_params cbEmptyName (some "") (some "2024-01-01") [] = .error .missingName ∧
    fill_params cbRidClash (some "q") (some "2024-01-01") [] =
      .ok [("startDate", .vstr "2024-01-01"), ("endDate", .vstr "2024-06-02")] := by
  constructor
  · rfl
  · rfl

/-- C3 (amended): for every nonempty name present in the registry and
every nonempty startDate, provided the resource id key differs from
`startDate` and `endDate`, `_fill_params` with no extra filters returns
exactly three keys — the resource id key bound to the registry id,
`startDate` bound to the given date, and `endDate` bound to the ISO-8601
form of the current date plus one day. -/
theorem C3_fill_params_three_keys (b : BWData) (name sd : String) (i : Int)
    (hname : name ≠ "") (hreg : alookup b.ids name = some i) (hsd : sd ≠ "")
    (h1 : b.resource_id_name ≠ "startDate") (h2 : b.resource_id_name ≠ "endDate") :
    fill_params b (some name) (some sd) [] =
      .ok [(b.resource_id_name, .vint i), ("startDate", .vstr sd),
           ("endDate", .vstr (isoformat (addOneDay b.today)))] := by
  rw [fill_params_nil_eq b name sd i hname hreg hsd,
      aset_three_distinct _ _ _ _ h1 h2]

/-- Witness for C3 at the concrete registry (today is 2024-06-01, so the
default endDate is 2024-06-02). -/
theorem C3_fill_params_three_keys_witness :
    fill_params wB (some "q") (some "2024-01-01") [] =
      .ok [("queryId", .vint 7), ("startDate", .vstr "2024-01-01"),
           ("endDate", .vstr "2024-06-02")] :=
  C3_fill_params_three_keys wB "q" "2024-01-01" 7
    (by decide) (by decide) (by decide) (by decide) (by decide)

/-- C6: any value supplied as `orderBy` (likewise `orderDirection`)
passes through `_fill_params` unvalidated — no `InvalidFilterError` can
arise for these parameters, which are absent from the filter policy
tables — and the returned mapping binds the key to exactly that value.
The table-absence hypotheses are the spec-modelled content of
`filters.py`, which is not under src. -/
theorem C6_orderBy_passthrough (b : BWData) (name sd : String) (i : Int) (v : Val)
    (hname : name ≠ "") (hreg : alookup b.ids name = some i) (hsd : sd ≠ "")
    (hr1 : b.resource_id_name ≠ "startDate") (hr2 : b.resource_id_name ≠ "endDate")
    (hr3 : b.resource_id_name ≠ "orderBy") (hr4 : b.resource_id_name ≠ "orderDirection")
    (hp1 : alookup b.fparams "orderBy" = none) (ho1 : alookup b.foptions "orderBy" = none)
    (hp2 : alookup b.fparams "orderDirection" = none)
    (ho2 : alookup b.foptions "orderDirection" = none) :
    fill_params b (some name) (some sd) [("orderBy", v)] =
      .ok [(b.resource_id_name, .vint i), ("startDate", .vstr sd),
           ("endDate", .vstr (isoformat (addOneDay b.today))), ("orderBy", v)] ∧
    fill_params b (some name) (some sd) [("orderDirection", v)] =
      .ok [(b.resource_id_name, .vint i), ("startDate", .vstr sd),
           ("endDate", .vstr (isoformat (addOneDay b.today))), ("orderDirection", v)] := by
  constructor
  · simp [fill_params, hname, hreg, hsd, alookup, fillLoop, name_to_id, idResolvedParams,
          valid_input, hp1, ho1, aset, hr1, hr2, hr3]
  · simp [fill_params, hname, hreg, hsd, alookup, fillLoop, name_to_id, idResolvedParams,
          valid_input, hp2, ho2, aset, hr1, hr2, hr4]

/-- Witness for C6: a list value — which would fail every type check —
flows through `orderBy` untouched. -/
theorem C6_orderBy_passthrough_witness :
    fill_params wB (some "q") (some "2024-01-01") [("orderBy", .vlist [.vint 1])] =
      .ok [("queryId", .vint 7), ("startDate", .vstr "2024-01-01"),
           ("endDate", .vstr "2024-06-02"), ("orderBy", .vlist [.vint 1])] :=
  (C6_orderBy_passthrough wB "q" "2024-01-01" 7 (.vlist [.vint 1])
    (by decide) (by decide) (by decide) (by decide) (by decide) (by decide) (by decide)
    (by decide) (by decide) (by decide) (by decide)).1

theorem fillLoop_invalid (b : BWData) (filled : Params) (param : String) (v : Val)
    (h : valid_input b param (name_to_id b param v) = false) :
    fillLoop b filled [(param, v)] = .error (.invalidFilter param) := by
  simp [fillLoop, h]

/-- The parameter dict `_fill_params` has built just before it enters
its validation loop: entity id, startDate, endDate and the
`orderBy`/`orderDirection` pass-through. -/
def baseParams (b : BWData) (sd : String) (i : Int) (data : Params) : Params :=
  let f0 : Params := aset [] b.resource_id_name (.vint i)
  let f1 := aset f0 "startDate" (.vstr sd)
  let f2 := aset f1 "endDate"
    (match alookup data "endDate" with
     | some v => v
     | none => .vstr (isoformat (addOneDay b.today)))
  let f3 := match alookup data "orderBy" with
    | some v => aset f2 "orderBy" v
    | none => f2
  match alookup data "orderDirection" with
  | some v => aset f3 "orderDirection" v
  | none => f3

theorem fill_params_eq_fillLoop (b : BWData) (s sd : String) (i : Int) (data : Params)
    (hs : s ≠ "") (hi : alookup b.ids s = some i) (hd : sd ≠ "") :
    fill_params b (some s) (some sd) data = fillLoop b (baseParams b sd i data) data := by
  simp [fill_params, baseParams, hs, hi, hd]

/-- A registry with an enumerated `sentiment` filter, used to exercise
`_valid_input` on enumeration members. -/
def cb5 : BWData :=
  { ids := [("q", 7)], resource_id_name := "queryId", resource_type := "queries",
    today := { year := 2024, month := 6, day := 1 },
    resolve := fun _ v => v, fparams := [],
    foptions := [("sentiment", [.vstr "positive", .vstr "neutral", .vstr "negative"])] }

/-- Counterexample for C5: every element of the sequence
`["positive"]` is a member of the declared sentiment enumeration, yet
validation rejects the sequence — the code tests the whole value for
membership with Python `in`, never element-wise — and `_fill_params`
raises `InvalidFilterError` for it. -/
theorem C5_counterexample :
    ((Val.vstr "positive") ∈ [Val.vstr "positive", .vstr "neutral", .vstr "negative"] ∧
     alookup cb5.foptions "sentiment" =
       some [.vstr "positive", .vstr "neutral", .vstr "negative"]) ∧
    valid_input cb5 "sentiment" (.vlist [.vstr "positive"]) = false ∧
    fill_params cb5 (some "q") (some "2024-01-01")
        [("sentiment", .vlist [.vstr "positive"])] =
      .error (.invalidFilter "sentiment") := by
  refine ⟨⟨?_, ?_⟩, ?_, ?_⟩ <;> first
    | decide
    | rfl

/-- C5 (amended): for a parameter with a declared legal-value
enumeration and no type entry, validation accepts a value — scalar or
sequence alike — exactly when the value itself is a member of the
declared list (element-wise membership is never tested), and
`_fill_params` fails with `InvalidFilterError` naming the parameter for
any non-member.  The policy table shape is the spec-modelled content of
`filters.py`, which is not under src. -/
theorem C5_enum_validation (b : BWData) (param : String) (S : List Val) (v : Val)
    (name sd : String) (i : Int)
    (hopt : alookup b.foptions param = some S)
    (hty : alookup b.fparams param = none)
    (hnr : idResolvedParams.contains param = false)
    (hname : name ≠ "") (hreg : alookup b.ids name = some i) (hsd : sd ≠ "") :
    (valid_input b param v = true ↔ v ∈ S) ∧
    (v ∉ S →
      fill_params b (some name) (some sd) [(param, v)] = .error (.invalidFilter param)) := by
  have hvi : valid_input b param v = S.contains v := by
    simp only [valid_input, hty, hopt, Option.isSome_none, Bool.false_and]
    cases hS : S.contains v <;> simp [hS]
  constructor
  · rw [hvi]; simp
  · intro hv
    have hnr' : param ∉ idResolvedParams := by simpa using hnr
    have hni : name_to_id b param v = v := by simp [name_to_id, hnr']
    have hvf : valid_input b param (name_to_id b param v) = false := by
      rw [hni, hvi]; simpa using hv
    rw [fill_params_eq_fillLoop b name sd i [(param, v)] hname hreg hsd]
    exact fillLoop_invalid b _ param v hvf

/-- Witness for C5: a scalar non-member of the sentiment enumeration is
rejected with `InvalidFilterError` naming the parameter. -/
theorem C5_enum_validation_witness :
    fill_params cb5 (some "q") (some "2024-01-01") [("sentiment", .vstr "wrong")] =
      .error (.invalidFilter "sentiment") :=
  (C5_enum_validation cb5 "sentiment"
      [.vstr "positive", .vstr "neutral", .vstr "negative"] (.vstr "wrong")
      "q" "2024-01-01" 7 (by decide) (by decide) (by decide) (by decide) (by decide)
      (by decide)).2 (by decide)

/-- A concrete transport serving one date-range record named `r` with id
11, and empty result envelopes elsewhere. -/
def wTrDR : Transport := fun ep _ =>
  if ep = "queries/7/date-range" then
    .vlist [.vdict [("id", .vint 11), ("name", .vstr "r")]]
  else
    .vdict [("results", .vlist [])]

/-- C8: evaluating `get_date_range_comparison` at the failing input —
registered name, valid start date, a non-empty fetched date-range list
and no `date_ranges` argument — the call dies with a `TypeError` raised
by `dr["name"] in None` inside the list comprehension, not with the
`InvalidDateRangeError` the claim (and the method docstring, which
promises a `KeyError`) requires; the second conjunct shows the
`InvalidDateRangeError` is reachable when supplied names resolve to no
id. -/
theorem C8_date_range_none_type_error :
    get_date_range_comparison wB wTrDR (some "q") (some "2024-01-01") none [] =
      ([("queries/7/date-range", [])],
       .error (.typeError "argument of type NoneType is not iterable")) ∧
    get_date_range_comparison wB wTrDR (some "q") (some "2024-01-01") (some ["nope"]) [] =
      ([("queries/7/date-range", [])], .error .invalidDateRange) := by
  constructor
  · rfl
  · rfl

/-- Counterexample for C4: `get_date_range_comparison` with a registered
name, a valid date-range argument and a falsy startDate issues the
date-range fetch over the network and only then fails with the
missing-start-date error, while the claim asserts that no transport get
happens before a required-argument failure. -/
theorem C4_counterexample :
    get_date_range_comparison wB wTrDR (some "q") none (some ["r"]) [] =
      ([("queries/7/date-range", [])], .error .missingStartDate) ∧
    ([("queries/7/date-range", ([] : Params))] : List Fetch) ≠ [] := by
  constructor
  · rfl
  · simp

/-- An operation that performs the three required-argument checks before
any transport fetch: a falsy name yields the missing-name error, an
unknown name the unknown-entity error, a falsy start date the
missing-start-date error, each with an empty fetch log. -/
def FailsEarly (f : BWData → Transport → Option String → Option String → Params →
    List Fetch × Except Err Val) : Prop :=
  ∀ (b : BWData) (tr : Transport) (name startDate : Option String) (kwargs : Params),
    (truthyS name = false → f b tr name startDate kwargs = ([], .error .missingName)) ∧
    (∀ s : String, name = some s → s ≠ "" → alookup b.ids s = none →
      f b tr name startDate kwargs = ([], .error (.unknownEntity s))) ∧
    (∀ (s : String) (i : Int), name = some s → s ≠ "" → alookup b.ids s = some i →
      truthyS startDate = false →
      f b tr name startDate kwargs = ([], .error .missingStartDate))

theorem FailsEarly_of_simpleGet
    (g : BWData → Transport → Option String → Option String → Params →
      List Fetch × Except Err Val)
    (h : ∀ b tr n sd k, ∃ tweak ep unwrap, g b tr n sd k = simpleGet b tr n sd k tweak ep unwrap) :
    FailsEarly g := by
  intro b tr n sd k
  obtain ⟨tw, ep, uw, hg⟩ := h b tr n sd k
  refine ⟨?_, ?_, ?_⟩
  · intro hn
    rw [hg]
    exact simpleGet_fillErr _ _ _ _ _ _ _ _ _ (fill_params_missingName b n sd k hn)
  · intro s hs hne hu
    subst hs
    rw [hg]
    exact simpleGet_fillErr _ _ _ _ _ _ _ _ _ (fill_params_unknownEntity b s sd k hne hu)
  · intro s i hs hne hi hd
    subst hs
    rw [hg]
    exact simpleGet_fillErr _ _ _ _ _ _ _ _ _ (fill_params_missingStartDate b s i sd k hne hi hd)

theorem FailsEarly_agg
    (g1 g : BWData → Transport → Option String → Option String → Params →
      List Fetch × Except Err Val)
    (h1 : FailsEarly g1)
    (hshape : ∀ b tr n sd k, ∃ f2, g b tr n sd k = rbind (g1 b tr n sd []) f2) :
    FailsEarly g := by
  intro b tr n sd k
  obtain ⟨f2, hg⟩ := hshape b tr n sd k
  obtain ⟨ha, hb, hc⟩ := h1 b tr n sd []
  refine ⟨?_, ?_, ?_⟩
  · intro hn
    rw [hg, ha hn]
    rfl
  · intro s hs hne hu
    rw [hg, hb s hs hne hu]
    rfl
  · intro s i hs hne hi hd
    rw [hg, hc s i hs hne hi hd]
    rfl

theorem failsEarly_num_mentions : FailsEarly num_mentions :=
  FailsEarly_of_simpleGet _ (fun b tr n sd k => ⟨_, _, _, rfl⟩)

theorem failsEarly_get_topics : FailsEarly get_topics :=
  FailsEarly_of_simpleGet _ (fun b tr n sd k => ⟨_, _, _, rfl⟩)

theorem failsEarly_get_topics_comparison : FailsEarly get_topics_comparison :=
  FailsEarly_of_simpleGet _ (fun b tr n sd k => ⟨_, _, _, rfl⟩)

theorem failsEarly_get_authors : FailsEarly get_authors :=
  FailsEarly_of_simpleGet _ (fun b tr n sd k => ⟨_, _, _, rfl⟩)

theorem failsEarly_get_history : FailsEarly get_history :=
  FailsEarly_of_simpleGet _ (fun b tr n sd k => ⟨_, _, _, rfl⟩)

theorem failsEarly_get_topsites : FailsEarly get_topsites :=
  FailsEarly_of_simpleGet _ (fun b tr n sd k => ⟨_, _, _, rfl⟩)

theorem failsEarly_get_tweeters : FailsEarly get_tweeters :=
  FailsEarly_of_simpleGet _ (fun b tr n sd k => ⟨_, _, _, rfl⟩)

theorem failsEarly_get_volume : FailsEarly get_volume :=
  FailsEarly_of_simpleGet _ (fun b tr n sd k => ⟨_, _, _, rfl⟩)

theorem failsEarly_get_world : FailsEarly get_world :=
  FailsEarly_of_simpleGet _ (fun b tr n sd k => ⟨_, _, _, rfl⟩)

theorem failsEarly_get_keyinsights_mention_count : FailsEarly get_keyinsights_mention_count :=
  FailsEarly_of_simpleGet _ (fun b tr n sd k => ⟨_, _, _, rfl⟩)

theorem failsEarly_get_keyinsights_author_count : FailsEarly get_keyinsights_author_count :=
  FailsEarly_of_simpleGet _ (fun b tr n sd k => ⟨_, _, _, rfl⟩)

theorem failsEarly_get_keyinsights_topics : FailsEarly get_keyinsights_topics :=
  FailsEarly_of_simpleGet _ (fun b tr n sd k => ⟨_, _, _, rfl⟩)

theorem failsEarly_get_keyinsights_news : FailsEarly get_keyinsights_news :=
  FailsEarly_of_simpleGet _ (fun b tr n sd k => ⟨_, _, _, rfl⟩)

theorem failsEarly_get_summary_sentiment : FailsEarly get_summary_sentiment :=
  FailsEarly_of_simpleGet _ (fun b tr n sd k => ⟨_, _, _, rfl⟩)

theorem failsEarly_get_summary_topsites : FailsEarly get_summary_topsites :=
  FailsEarly_of_simpleGet _ (fun b tr n sd k => ⟨_, _, _, rfl⟩)

theorem failsEarly_get_summary_pagetypes : FailsEarly get_summary_pagetypes :=
  FailsEarly_of_simpleGet _ (fun b tr n sd k => ⟨_, _, _, rfl⟩)

theorem failsEarly_get_volume_group : FailsEarly get_volume_group :=
  FailsEarly_of_simpleGet _ (fun b tr n sd k => ⟨_, _, _, rfl⟩)

theorem failsEarly_get_fb_audience : FailsEarly get_fb_audience :=
  FailsEarly_of_simpleGet _ (fun b tr n sd k => ⟨_, _, _, rfl⟩)

theorem failsEarly_get_fb_comments : FailsEarly get_fb_comments :=
  FailsEarly_of_simpleGet _ (fun b tr n sd k => ⟨_, _, _, rfl⟩)

theorem failsEarly_get_fb_posts : FailsEarly get_fb_posts :=
  FailsEarly_of_simpleGet _ (fun b tr n sd k => ⟨_, _, _, rfl⟩)

theorem failsEarly_tw_feature : FailsEarly (fun b tr n sd k => get_twitter_insights_feature b tr n sd (some "hashtags") k) :=
  FailsEarly_of_simpleGet _ (fun b tr n sd k => ⟨_, _, _, by
    simp only [get_twitter_insights_feature]
    rw [if_neg (by decide)]⟩)

theorem failsEarly_fb_sub : FailsEarly (fun b tr n sd k => get_fb_analytics_sub b tr n sd (some "audience") k) :=
  FailsEarly_of_simpleGet _ (fun b tr n sd k => ⟨_, _, _, by
    simp only [get_fb_analytics_sub]
    rw [if_neg (by decide)]⟩)

theorem failsEarly_ig_sub : FailsEarly (fun b tr n sd k => get_ig_interactions_sub b tr n sd (some "ownerActivity") k) :=
  FailsEarly_of_simpleGet _ (fun b tr n sd k => ⟨_, _, _, by
    simp only [get_ig_interactions_sub]
    rw [if_neg (by decide)]⟩)

theorem failsEarly_chart : FailsEarly (fun b tr n sd k => get_chart b tr n sd (some "volume") (some "days") (some "sentiment") k) :=
  FailsEarly_of_simpleGet _ (fun b tr n sd k => ⟨_, _, _, by
    simp only [get_chart]
    rw [if_neg (by decide)]⟩)

theorem failsEarly_get_summary : FailsEarly get_summary :=
  FailsEarly_agg _ _ failsEarly_get_summary_sentiment (fun b tr n sd k => ⟨_, rfl⟩)

theorem failsEarly_get_keyinsights : FailsEarly get_keyinsights :=
  FailsEarly_agg _ _ failsEarly_get_keyinsights_mention_count (fun b tr n sd k => ⟨_, rfl⟩)

theorem failsEarly_get_twitter_insights : FailsEarly get_twitter_insights :=
  FailsEarly_agg _ _ failsEarly_tw_feature (fun b tr n sd k => ⟨_, rfl⟩)

theorem failsEarly_get_fb_analytics : FailsEarly get_fb_analytics :=
  FailsEarly_agg _ _ failsEarly_fb_sub (fun b tr n sd k => ⟨_, rfl⟩)

theorem failsEarly_get_ig_interactions : FailsEarly get_ig_interactions :=
  FailsEarly_agg _ _ failsEarly_ig_sub (fun b tr n sd k => ⟨_, rfl⟩)

/-- The data-accessor operations of `BWData` (those whose first step is
`_fill_params`), with method-specific discriminator arguments supplied
where the method requires them. -/
def dataAccessors : List (BWData → Transport → Option String → Option String → Params →
    List Fetch × Except Err Val) :=
  [num_mentions, get_topics, get_topics_comparison, get_authors, get_history,
   get_topsites, get_tweeters, get_volume, get_world,
   get_keyinsights, get_keyinsights_mention_count, get_keyinsights_author_count,
   get_keyinsights_topics, get_keyinsights_news,
   get_summary, get_summary_sentiment, get_summary_topsites, get_summary_pagetypes,
   get_twitter_insights,
   fun b tr n sd k => get_twitter_insights_feature b tr n sd (some "hashtags") k,
   get_volume_group, get_fb_analytics,
   fun b tr n sd k => get_fb_analytics_sub b tr n sd (some "audience") k,
   get_fb_audience, get_fb_comments, get_fb_posts, get_ig_interactions,
   fun b tr n sd k => get_ig_interactions_sub b tr n sd (some "ownerActivity") k,
   fun b tr n sd k => get_chart b tr n sd (some "volume") (some "days") (some "sentiment") k]

/-- C4 (amended): every data accessor whose first step is
`_fill_params` — all of them except `get_date_range_comparison`, with
method-specific discriminators supplied — fails with the corresponding
required-argument error (missing name, unknown entity, missing start
date, checked in that order) and issues no transport fetch;
`get_mentions` likewise returns the parameter-filling error with an
empty fetch log; `get_date_range_comparison` is the exception: a falsy
name raises a plain registry `KeyError` (still without a fetch), but —
as the counterexample shows — it fetches the date-range list over the
network before the start-date check. -/
theorem C4_required_arg_failures :
    (∀ f ∈ dataAccessors, FailsEarly f) ∧
    (∀ (b : BWData) (tr : Transport) (name startDate : Option String)
        (maxp : Option Int) (kwargs : Params) (fuel : Nat) (e : Err),
        fill_params b name startDate kwargs = .error e →
        get_mentions b tr name startDate maxp kwargs fuel = some ([], .error e)) ∧
    (∀ (b : BWData) (tr : Transport) (startDate : Option String)
        (drs : Option (List String)) (kwargs : Params),
        get_date_range_comparison b tr none startDate drs kwargs =
          ([], .error (.dictKeyError "None"))) := by
  refine ⟨?_, ?_, ?_⟩
  · intro f hf
    simp only [dataAccessors, List.mem_cons, List.not_mem_nil, or_false] at hf
    rcases hf with rfl | rfl | rfl | rfl | rfl | rfl | rfl | rfl | rfl | rfl | rfl | rfl |
      rfl | rfl | rfl | rfl | rfl | rfl | rfl | rfl | rfl | rfl | rfl | rfl | rfl | rfl |
      rfl | rfl | rfl
    · exact failsEarly_num_mentions
    · exact failsEarly_get_topics
    · exact failsEarly_get_topics_comparison
    · exact failsEarly_get_authors
    · exact failsEarly_get_history
    · exact failsEarly_get_topsites
    · exact failsEarly_get_tweeters
    · exact failsEarly_get_volume
    · exact failsEarly_get_world
    · exact failsEarly_get_keyinsights
    · exact failsEarly_get_keyinsights_mention_count
    · exact failsEarly_get_keyinsights_author_count
    · exact failsEarly_get_keyinsights_topics
    · exact failsEarly_get_keyinsights_news
    · exact failsEarly_get_summary
    · exact failsEarly_get_summary_sentiment
    · exact failsEarly_get_summary_topsites
    · exact failsEarly_get_summary_pagetypes
    · exact failsEarly_get_twitter_insights
    · exact failsEarly_tw_feature
    · exact failsEarly_get_volume_group
    · exact failsEarly_get_fb_analytics
    · exact failsEarly_fb_sub
    · exact failsEarly_get_fb_audience
    · exact failsEarly_get_fb_comments
    · exact failsEarly_get_fb_posts
    · exact failsEarly_get_ig_interactions
    · exact failsEarly_ig_sub
    · exact failsEarly_chart
  · intro b tr name sd maxp kwargs fuel e h
    simp [get_mentions, h]
  · intro b tr sd drs kwargs
    rfl

/-- Witness for C4: the missing-name failure of `num_mentions` at a
concrete registry and transport, with an empty fetch log. -/
theorem C4_required_arg_failures_witness :
    num_mentions wB wTr none none [] = ([], .error .missingName) :=
  (C4_required_arg_failures.1 num_mentions (by simp [dataAccessors]) wB wTr
    none none []).1 rfl
